import Mathlib

/-! Plugin registrant (`windows/flutter/generated_plugin_registrant.cc`)

The source file is one straight-line function,

    void RegisterPlugins(flutter::PluginRegistry* registry)

which, seven times in a row, asks `registry` for the registrar of a named
plugin and hands the returned registrar to that plugin's registration entry
point.  The registry class and the seven entry points are declared in headers
that are not part of the repository, so they are taken as parameters (`Host`).

Stateful code is embedded by explicit state passing: an operation of the host
is a function `W → α × W` on an arbitrary world state `W` (written
`StateM W α`).  A C++ call `F(registry->GetRegistrarForPlugin("X"))` evaluates
its argument before the call, so it is the sequence "request, then register".
-/

namespace PluginRegistrant

/-! ## The external collaborators -/

/-- The operations `RegisterPlugins` calls.  `W` is the state of the world the
calls act on, `R` the type of registry handles (`flutter::PluginRegistry*`),
`T` the type of registrar handles (whatever `GetRegistrarForPlugin` returns,
a null handle included).  Every field keeps the name of the C++ function it
stands for. -/
structure Host (W R T : Type) where
  GetRegistrarForPlugin : R → String → StateM W T
  AudioplayersWindowsPluginRegisterWithRegistrar : T → StateM W Unit
  FlutterTtsPluginRegisterWithRegistrar : T → StateM W Unit
  ScreenBrightnessWindowsPluginRegisterWithRegistrar : T → StateM W Unit
  SharePlusWindowsPluginCApiRegisterWithRegistrar : T → StateM W Unit
  SpeechToTextWindowsRegisterWithRegistrar : T → StateM W Unit
  UrlLauncherWindowsRegisterWithRegistrar : T → StateM W Unit
  VolumeControllerPluginCApiRegisterWithRegistrar : T → StateM W Unit

/-! ## The function under verification -/

/-- Transcription of `RegisterPlugins` (source lines 17-32), statement by
statement and in the order written. -/
def RegisterPlugins {W R T : Type} (h : Host W R T) (registry : R) : StateM W Unit := do
  h.AudioplayersWindowsPluginRegisterWithRegistrar
      (← h.GetRegistrarForPlugin registry "AudioplayersWindowsPlugin")
  h.FlutterTtsPluginRegisterWithRegistrar
      (← h.GetRegistrarForPlugin registry "FlutterTtsPlugin")
  h.ScreenBrightnessWindowsPluginRegisterWithRegistrar
      (← h.GetRegistrarForPlugin registry "ScreenBrightnessWindowsPlugin")
  h.SharePlusWindowsPluginCApiRegisterWithRegistrar
      (← h.GetRegistrarForPlugin registry "SharePlusWindowsPluginCApi")
  h.SpeechToTextWindowsRegisterWithRegistrar
      (← h.GetRegistrarForPlugin registry "SpeechToTextWindows")
  h.UrlLauncherWindowsRegisterWithRegistrar
      (← h.GetRegistrarForPlugin registry "UrlLauncherWindows")
  h.VolumeControllerPluginCApiRegisterWithRegistrar
      (← h.GetRegistrarForPlugin registry "VolumeControllerPluginCApi")

/-! ## Observing a run -/

/-- The seven registration entry points, as values that can be logged. -/
inductive EntryPoint where
  | AudioplayersWindowsPluginRegisterWithRegistrar
  | FlutterTtsPluginRegisterWithRegistrar
  | ScreenBrightnessWindowsPluginRegisterWithRegistrar
  | SharePlusWindowsPluginCApiRegisterWithRegistrar
  | SpeechToTextWindowsRegisterWithRegistrar
  | UrlLauncherWindowsRegisterWithRegistrar
  | VolumeControllerPluginCApiRegisterWithRegistrar
  deriving DecidableEq, Repr

/-- One observable call: a registrar request on a registry (with the value the
registry returned), or an entry point invoked on a registrar. -/
inductive Event (R T : Type) where
  | request (registry : R) (name : String) (returned : T)
  | register (entry : EntryPoint) (registrar : T)
  deriving DecidableEq, Repr

/-- Run `op` on the world component and append the event it gives rise to. -/
def logged {W R T α : Type} (op : StateM W α) (ev : α → Event R T) :
    StateM (W × List (Event R T)) α :=
  fun s => ((op s.1).1, ((op s.1).2, s.2 ++ [ev (op s.1).1]))

/-- The recording stub: the same host, with every call appended to a log that
is carried next to the world.  The log is write-only, so the host behaves as
before (`recording_run`). -/
def recording {W R T : Type} (h : Host W R T) : Host (W × List (Event R T)) R T where
  GetRegistrarForPlugin registry name :=
    logged (h.GetRegistrarForPlugin registry name) (Event.request registry name)
  AudioplayersWindowsPluginRegisterWithRegistrar t :=
    logged (h.AudioplayersWindowsPluginRegisterWithRegistrar t)
      (fun _ => Event.register EntryPoint.AudioplayersWindowsPluginRegisterWithRegistrar t)
  FlutterTtsPluginRegisterWithRegistrar t :=
    logged (h.FlutterTtsPluginRegisterWithRegistrar t)
      (fun _ => Event.register EntryPoint.FlutterTtsPluginRegisterWithRegistrar t)
  ScreenBrightnessWindowsPluginRegisterWithRegistrar t :=
    logged (h.ScreenBrightnessWindowsPluginRegisterWithRegistrar t)
      (fun _ => Event.register EntryPoint.ScreenBrightnessWindowsPluginRegisterWithRegistrar t)
  SharePlusWindowsPluginCApiRegisterWithRegistrar t :=
    logged (h.SharePlusWindowsPluginCApiRegisterWithRegistrar t)
      (fun _ => Event.register EntryPoint.SharePlusWindowsPluginCApiRegisterWithRegistrar t)
  SpeechToTextWindowsRegisterWithRegistrar t :=
    logged (h.SpeechToTextWindowsRegisterWithRegistrar t)
      (fun _ => Event.register EntryPoint.SpeechToTextWindowsRegisterWithRegistrar t)
  UrlLauncherWindowsRegisterWithRegistrar t :=
    logged (h.UrlLauncherWindowsRegisterWithRegistrar t)
      (fun _ => Event.register EntryPoint.UrlLauncherWindowsRegisterWithRegistrar t)
  VolumeControllerPluginCApiRegisterWithRegistrar t :=
    logged (h.VolumeControllerPluginCApiRegisterWithRegistrar t)
      (fun _ => Event.register EntryPoint.VolumeControllerPluginCApiRegisterWithRegistrar t)

/-- The events of one call of `RegisterPlugins` on `registry` from world `w`. -/
def trace {W R T : Type} (h : Host W R T) (registry : R) (w : W) : List (Event R T) :=
  (RegisterPlugins (recording h) registry (w, [])).2.2

/-- The events of `RegisterPlugins(r1)` followed by `RegisterPlugins(r2)` from
world `w` (one log for both calls; `r1` and `r2` may be the same registry). -/
def traceTwo {W R T : Type} (h : Host W R T) (r1 r2 : R) (w : W) : List (Event R T) :=
  ((do RegisterPlugins (recording h) r1
       RegisterPlugins (recording h) r2 : StateM (W × List (Event R T)) Unit) (w, [])).2.2

/-- The (registry, name) of every registrar request in a log, in order. -/
def requests {R T : Type} : List (Event R T) → List (R × String)
  | [] => []
  | Event.request registry name _ :: log => (registry, name) :: requests log
  | Event.register _ _ :: log => requests log

/-- The names requested in a log, in order. -/
def requestedNames {R T : Type} (log : List (Event R T)) : List String :=
  (requests log).map Prod.snd

/-- The values the registry returned to the requests of a log, in order. -/
def returned {R T : Type} : List (Event R T) → List T
  | [] => []
  | Event.request _ _ t :: log => t :: returned log
  | Event.register _ _ :: log => returned log

/-- The (entry point, registrar) of every entry-point invocation in a log. -/
def registrations {R T : Type} : List (Event R T) → List (EntryPoint × T)
  | [] => []
  | Event.request _ _ _ :: log => registrations log
  | Event.register entry t :: log => (entry, t) :: registrations log

/-- The requests of a log made on registry `r`: name asked, value returned. -/
def requestsOn {R T : Type} [DecidableEq R] (r : R) : List (Event R T) → List (String × T)
  | [] => []
  | Event.request registry name t :: log =>
      if registry = r then (name, t) :: requestsOn r log else requestsOn r log
  | Event.register _ _ :: log => requestsOn r log

/-- The registrations of a log whose registrar belongs to registry `r`, when
`owner` tells which registry a registrar belongs to. -/
def registrationsOf {R T : Type} [DecidableEq R] (owner : T → R) (r : R)
    (log : List (Event R T)) : List (EntryPoint × T) :=
  (registrations log).filter (fun p => decide (owner p.2 = r))

/-! ## The list of plugins, as written in the source -/

/-- The seven (plugin name, registration entry point) pairs of source lines
18-31, in the order written. -/
def plugins : List (String × EntryPoint) :=
  [("AudioplayersWindowsPlugin", EntryPoint.AudioplayersWindowsPluginRegisterWithRegistrar),
   ("FlutterTtsPlugin", EntryPoint.FlutterTtsPluginRegisterWithRegistrar),
   ("ScreenBrightnessWindowsPlugin",
      EntryPoint.ScreenBrightnessWindowsPluginRegisterWithRegistrar),
   ("SharePlusWindowsPluginCApi", EntryPoint.SharePlusWindowsPluginCApiRegisterWithRegistrar),
   ("SpeechToTextWindows", EntryPoint.SpeechToTextWindowsRegisterWithRegistrar),
   ("UrlLauncherWindows", EntryPoint.UrlLauncherWindowsRegisterWithRegistrar),
   ("VolumeControllerPluginCApi", EntryPoint.VolumeControllerPluginCApiRegisterWithRegistrar)]

/-- The seven names passed to `GetRegistrarForPlugin`, in the order written. -/
def pluginNames : List String :=
  ["AudioplayersWindowsPlugin", "FlutterTtsPlugin", "ScreenBrightnessWindowsPlugin",
   "SharePlusWindowsPluginCApi", "SpeechToTextWindows", "UrlLauncherWindows",
   "VolumeControllerPluginCApi"]

/-- The seven entry points, in the order they are called. -/
def entryPoints : List EntryPoint :=
  [EntryPoint.AudioplayersWindowsPluginRegisterWithRegistrar,
   EntryPoint.FlutterTtsPluginRegisterWithRegistrar,
   EntryPoint.ScreenBrightnessWindowsPluginRegisterWithRegistrar,
   EntryPoint.SharePlusWindowsPluginCApiRegisterWithRegistrar,
   EntryPoint.SpeechToTextWindowsRegisterWithRegistrar,
   EntryPoint.UrlLauncherWindowsRegisterWithRegistrar,
   EntryPoint.VolumeControllerPluginCApiRegisterWithRegistrar]

/-- The name under which the source requests the registrar that it passes to
an entry point. -/
def EntryPoint.pluginName : EntryPoint → String
  | EntryPoint.AudioplayersWindowsPluginRegisterWithRegistrar => "AudioplayersWindowsPlugin"
  | EntryPoint.FlutterTtsPluginRegisterWithRegistrar => "FlutterTtsPlugin"
  | EntryPoint.ScreenBrightnessWindowsPluginRegisterWithRegistrar =>
      "ScreenBrightnessWindowsPlugin"
  | EntryPoint.SharePlusWindowsPluginCApiRegisterWithRegistrar => "SharePlusWindowsPluginCApi"
  | EntryPoint.SpeechToTextWindowsRegisterWithRegistrar => "SpeechToTextWindows"
  | EntryPoint.UrlLauncherWindowsRegisterWithRegistrar => "UrlLauncherWindows"
  | EntryPoint.VolumeControllerPluginCApiRegisterWithRegistrar => "VolumeControllerPluginCApi"

/-- The events of registering the plugins `ps` on `registry` when the k-th
request returns the k-th element of `ts`: request, then registration with the
returned value, plugin after plugin. -/
def eventsOf {R T : Type} (registry : R) :
    List (String × EntryPoint) → List T → List (Event R T)
  | (name, entry) :: ps, t :: ts =>
      Event.request registry name t :: Event.register entry t :: eventsOf registry ps ts
  | _, _ => []

/-! ## The registrant as an iteration over a list

The specification describes the registrant as an iteration over a static
sequence of (name, registration function) pairs.  `registerList` is that
reading; `RegisterPlugins` is `registerList` over `plugins`
(`RegisterPlugins_eq_registerList`). -/

/-- Call the entry point denoted by `entry`. -/
def Host.invoke {W R T : Type} (h : Host W R T) : EntryPoint → T → StateM W Unit
  | EntryPoint.AudioplayersWindowsPluginRegisterWithRegistrar =>
      h.AudioplayersWindowsPluginRegisterWithRegistrar
  | EntryPoint.FlutterTtsPluginRegisterWithRegistrar =>
      h.FlutterTtsPluginRegisterWithRegistrar
  | EntryPoint.ScreenBrightnessWindowsPluginRegisterWithRegistrar =>
      h.ScreenBrightnessWindowsPluginRegisterWithRegistrar
  | EntryPoint.SharePlusWindowsPluginCApiRegisterWithRegistrar =>
      h.SharePlusWindowsPluginCApiRegisterWithRegistrar
  | EntryPoint.SpeechToTextWindowsRegisterWithRegistrar =>
      h.SpeechToTextWindowsRegisterWithRegistrar
  | EntryPoint.UrlLauncherWindowsRegisterWithRegistrar =>
      h.UrlLauncherWindowsRegisterWithRegistrar
  | EntryPoint.VolumeControllerPluginCApiRegisterWithRegistrar =>
      h.VolumeControllerPluginCApiRegisterWithRegistrar

/-- The registrant over an arbitrary list of (name, entry point) pairs: for
each pair in turn, request the registrar of the name and pass it to the entry
point. -/
def registerList {W R T : Type} (h : Host W R T) (registry : R) :
    List (String × EntryPoint) → StateM W Unit
  | [] => pure ()
  | (name, entry) :: rest => do
      h.invoke entry (← h.GetRegistrarForPlugin registry name)
      registerList h registry rest

/-- The events of one run of `registerList` over `l` from world `w`. -/
def listTrace {W R T : Type} (h : Host W R T) (registry : R)
    (l : List (String × EntryPoint)) (w : W) : List (Event R T) :=
  (registerList (recording h) registry l (w, [])).2.2

/-! ## A concrete stub -/

/-- A stub host: no state, the registrar of `name` on registry `r` is the pair
`(r, name)`, the entry points do nothing. -/
def stub : Host Unit Nat (Nat × String) where
  GetRegistrarForPlugin r name := pure (r, name)
  AudioplayersWindowsPluginRegisterWithRegistrar _ := pure ()
  FlutterTtsPluginRegisterWithRegistrar _ := pure ()
  ScreenBrightnessWindowsPluginRegisterWithRegistrar _ := pure ()
  SharePlusWindowsPluginCApiRegisterWithRegistrar _ := pure ()
  SpeechToTextWindowsRegisterWithRegistrar _ := pure ()
  UrlLauncherWindowsRegisterWithRegistrar _ := pure ()
  VolumeControllerPluginCApiRegisterWithRegistrar _ := pure ()

/-! ## Shared lemmas -/

/-- Recording changes nothing but the log: the world after a recorded call is
the world after the plain call, and the log grows by the trace of the call. -/
theorem recording_run {W R T : Type} (h : Host W R T) (registry : R) (w : W)
    (log : List (Event R T)) :
    RegisterPlugins (recording h) registry (w, log)
      = ((), ((RegisterPlugins h registry w).2, log ++ trace h registry w)) := by
  simp only [trace, RegisterPlugins, recording, logged, bind, StateT.bind, List.nil_append,
    List.append_assoc, List.cons_append, List.singleton_append]
  rfl

/-- The trace of a call is the request/registration sequence of `plugins`,
each registration receiving what the request just before it returned. -/
theorem trace_eq {W R T : Type} (h : Host W R T) (registry : R) (w : W) :
    ∃ w1 w2 w3 w4 w5 w6 w7 : W, trace h registry w = eventsOf registry plugins
      [(h.GetRegistrarForPlugin registry "AudioplayersWindowsPlugin" w1).1,
       (h.GetRegistrarForPlugin registry "FlutterTtsPlugin" w2).1,
       (h.GetRegistrarForPlugin registry "ScreenBrightnessWindowsPlugin" w3).1,
       (h.GetRegistrarForPlugin registry "SharePlusWindowsPluginCApi" w4).1,
       (h.GetRegistrarForPlugin registry "SpeechToTextWindows" w5).1,
       (h.GetRegistrarForPlugin registry "UrlLauncherWindows" w6).1,
       (h.GetRegistrarForPlugin registry "VolumeControllerPluginCApi" w7).1] :=
  ⟨_, _, _, _, _, _, _, rfl⟩

/-- When the registrar is a function `tok` of the name, the trace is known. -/
theorem trace_of_tok {W R T : Type} (h : Host W R T) (registry : R) (tok : String → T)
    (htok : ∀ name w, (h.GetRegistrarForPlugin registry name w).1 = tok name) (w : W) :
    trace h registry w = eventsOf registry plugins (pluginNames.map tok) := by
  obtain ⟨w1, w2, w3, w4, w5, w6, w7, e⟩ := trace_eq h registry w
  rw [e]
  simp only [htok, pluginNames, List.map]

/-- Two calls in a row: the log is the trace of the first call followed by the
trace of the second, which starts from the world the first call left. -/
theorem traceTwo_eq {W R T : Type} (h : Host W R T) (r1 r2 : R) (w : W) :
    traceTwo h r1 r2 w = trace h r1 w ++ trace h r2 (RegisterPlugins h r1 w).2 := by
  simp only [traceTwo, bind, StateT.bind, recording_run, List.nil_append]

/-- Every trace is `eventsOf` of seven returned values. -/
theorem trace_shape {W R T : Type} (h : Host W R T) (registry : R) (w : W) :
    ∃ t1 t2 t3 t4 t5 t6 t7 : T,
      trace h registry w = eventsOf registry plugins [t1, t2, t3, t4, t5, t6, t7] := by
  obtain ⟨w1, w2, w3, w4, w5, w6, w7, e⟩ := trace_eq h registry w
  exact ⟨_, _, _, _, _, _, _, e⟩

/-- The code is the list-driven registrant over `plugins`. -/
theorem RegisterPlugins_eq_registerList {W R T : Type} (h : Host W R T) (registry : R)
    (w : W) : RegisterPlugins h registry w = registerList h registry plugins w :=
  rfl

/-- One step of the recorded list-driven registrant. -/
theorem registerList_recording_cons {W R T : Type} (h : Host W R T) (registry : R)
    (name : String) (entry : EntryPoint) (rest : List (String × EntryPoint)) (w : W)
    (log : List (Event R T)) :
    registerList (recording h) registry ((name, entry) :: rest) (w, log)
      = registerList (recording h) registry rest
          ((h.invoke entry (h.GetRegistrarForPlugin registry name w).1
              (h.GetRegistrarForPlugin registry name w).2).2,
           log ++ [Event.request registry name (h.GetRegistrarForPlugin registry name w).1,
                   Event.register entry (h.GetRegistrarForPlugin registry name w).1]) := by
  cases entry <;>
    simp only [registerList, recording, logged, Host.invoke, bind, StateT.bind,
      List.append_assoc, List.singleton_append]

/-- The log of the list-driven registrant when the registrar is a function
`tok` of the name. -/
theorem registerList_recording_of_tok {W R T : Type} (h : Host W R T) (registry : R)
    (tok : String → T)
    (htok : ∀ name w, (h.GetRegistrarForPlugin registry name w).1 = tok name)
    (l : List (String × EntryPoint)) (w : W) (log : List (Event R T)) :
    (registerList (recording h) registry l (w, log)).2.2
      = log ++ eventsOf registry l (l.map (fun p => tok p.1)) := by
  induction l generalizing w log with
  | nil => simp [registerList, eventsOf, pure, StateT.pure]
  | cons p rest ih =>
    obtain ⟨name, entry⟩ := p
    rw [registerList_recording_cons, ih]
    simp [eventsOf, htok]

/-- The names requested by `eventsOf` over a list with as many values. -/
theorem requestedNames_eventsOf {R T : Type} (registry : R) (f : String → T)
    (l : List (String × EntryPoint)) :
    requestedNames (eventsOf registry l (l.map (fun p => f p.1))) = l.map Prod.fst := by
  induction l with
  | nil => rfl
  | cons p rest ih =>
    obtain ⟨name, entry⟩ := p
    simp only [requestedNames] at ih
    simp [eventsOf, requestedNames, requests, ih]

/-- The registrations of `eventsOf` over a list with as many values. -/
theorem registrations_eventsOf {R T : Type} (registry : R) (f : String → T)
    (l : List (String × EntryPoint)) :
    registrations (eventsOf registry l (l.map (fun p => f p.1)))
      = l.map (fun p => (p.2, f p.1)) := by
  induction l with
  | nil => rfl
  | cons p rest ih =>
    obtain ⟨name, entry⟩ := p
    simp [eventsOf, registrations, ih]

/-- In `plugins`, every entry point stands next to its own plugin name. -/
theorem plugins_pairing : ∀ p ∈ plugins, p.1 = p.2.pluginName := by
  decide

/-! ## The claims -/

/-- C1: for every host, registry and starting world, one call of
`RegisterPlugins` requests a registrar from that registry for exactly the
seven names of the source, in the order written: the request log is the seven
(registry, name) pairs, it has length 7 and no duplicates, each of the seven
names is requested exactly once and no other name is requested. -/
theorem C1_requests_exactly_the_seven_names {W R T : Type} (h : Host W R T) (registry : R)
    (w : W) :
    requests (trace h registry w)
        = [(registry, "AudioplayersWindowsPlugin"), (registry, "FlutterTtsPlugin"),
           (registry, "ScreenBrightnessWindowsPlugin"), (registry, "SharePlusWindowsPluginCApi"),
           (registry, "SpeechToTextWindows"), (registry, "UrlLauncherWindows"),
           (registry, "VolumeControllerPluginCApi")]
      ∧ requestedNames (trace h registry w) = pluginNames
      ∧ (requestedNames (trace h registry w)).length = 7
      ∧ (requestedNames (trace h registry w)).Nodup
      ∧ (∀ name ∈ pluginNames, (requestedNames (trace h registry w)).count name = 1)
      ∧ (∀ name, name ∉ pluginNames → (requestedNames (trace h registry w)).count name = 0) := by
  obtain ⟨t1, t2, t3, t4, t5, t6, t7, e⟩ := trace_shape h registry w
  have hn : requestedNames (trace h registry w) = pluginNames := by rw [e]; rfl
  have hd : pluginNames.Nodup := by decide
  refine ⟨by rw [e]; rfl, hn, by rw [hn]; rfl, by rw [hn]; exact hd, ?_, ?_⟩
  · intro name hmem
    rw [hn]
    exact List.count_eq_one_of_mem hd hmem
  · intro name hmem
    rw [hn]
    exact List.count_eq_zero_of_not_mem hmem

/-- C5: `RegisterPlugins` checks nothing and retries nothing.  For every host,
whatever values `GetRegistrarForPlugin` returns (the registrar type `T` is
arbitrary, so null or invalid handles are included), one call makes the seven
requests in order, invokes the seven entry points in order, hands to each
entry point exactly the value returned by the request for its own name (the
k-th registration pairs the k-th entry point with the k-th returned value),
has no further event, and its result is the unit value. -/
theorem C5_no_checks_no_retries {W R T : Type} (h : Host W R T) (registry : R) (w : W) :
    requestedNames (trace h registry w) = pluginNames
      ∧ (returned (trace h registry w)).length = 7
      ∧ registrations (trace h registry w) = entryPoints.zip (returned (trace h registry w))
      ∧ trace h registry w = eventsOf registry plugins (returned (trace h registry w))
      ∧ (trace h registry w).length = 14
      ∧ (RegisterPlugins h registry w).1 = () := by
  obtain ⟨t1, t2, t3, t4, t5, t6, t7, e⟩ := trace_shape h registry w
  refine ⟨by rw [e]; rfl, by rw [e]; rfl, by rw [e]; rfl, ?_, by rw [e]; rfl, rfl⟩
  have hr : returned (trace h registry w) = [t1, t2, t3, t4, t5, t6, t7] := by rw [e]; rfl
  rw [hr, e]

/-- C7: for every host, registry and starting world, the trace of one call is
exactly fourteen events in the order of the source: for each plugin in turn
the registrar is requested and the value returned is passed at once to that
plugin's entry point, before the next request.  The sequence of requested
names is therefore the same for any two hosts, registries and worlds. -/
theorem C7_fixed_event_order {W R T W2 R2 T2 : Type} (h : Host W R T) (registry : R) (w : W)
    (h2 : Host W2 R2 T2) (registry2 : R2) (w2 : W2) :
    (∃ t1 t2 t3 t4 t5 t6 t7 : T, trace h registry w =
      [Event.request registry "AudioplayersWindowsPlugin" t1,
       Event.register EntryPoint.AudioplayersWindowsPluginRegisterWithRegistrar t1,
       Event.request registry "FlutterTtsPlugin" t2,
       Event.register EntryPoint.FlutterTtsPluginRegisterWithRegistrar t2,
       Event.request registry "ScreenBrightnessWindowsPlugin" t3,
       Event.register EntryPoint.ScreenBrightnessWindowsPluginRegisterWithRegistrar t3,
       Event.request registry "SharePlusWindowsPluginCApi" t4,
       Event.register EntryPoint.SharePlusWindowsPluginCApiRegisterWithRegistrar t4,
       Event.request registry "SpeechToTextWindows" t5,
       Event.register EntryPoint.SpeechToTextWindowsRegisterWithRegistrar t5,
       Event.request registry "UrlLauncherWindows" t6,
       Event.register EntryPoint.UrlLauncherWindowsRegisterWithRegistrar t6,
       Event.request registry "VolumeControllerPluginCApi" t7,
       Event.register EntryPoint.VolumeControllerPluginCApiRegisterWithRegistrar t7])
      ∧ (trace h registry w).length = 14
      ∧ requestedNames (trace h registry w) = requestedNames (trace h2 registry2 w2) := by
  obtain ⟨t1, t2, t3, t4, t5, t6, t7, e⟩ := trace_shape h registry w
  obtain ⟨u1, u2, u3, u4, u5, u6, u7, e2⟩ := trace_shape h2 registry2 w2
  refine ⟨⟨t1, t2, t3, t4, t5, t6, t7, e⟩, by rw [e]; rfl, ?_⟩
  rw [e, e2]
  rfl

/-- C2: for a registry whose `GetRegistrarForPlugin` returns a distinct token
for each name (the token is an injective function `tok` of the name), one call
of `RegisterPlugins` invokes each of the seven entry points exactly once, each
on the token of its own plugin name; no token is passed to two entry points,
and an entry point that receives the token of a name is the one the source
pairs with that name. -/
theorem C2_each_entry_point_gets_its_own_registrar {W R T : Type} (h : Host W R T)
    (registry : R) (tok : String → T) (hinj : Function.Injective tok)
    (htok : ∀ name w, (h.GetRegistrarForPlugin registry name w).1 = tok name) (w : W) :
    registrations (trace h registry w)
        = [(EntryPoint.AudioplayersWindowsPluginRegisterWithRegistrar,
              tok "AudioplayersWindowsPlugin"),
           (EntryPoint.FlutterTtsPluginRegisterWithRegistrar, tok "FlutterTtsPlugin"),
           (EntryPoint.ScreenBrightnessWindowsPluginRegisterWithRegistrar,
              tok "ScreenBrightnessWindowsPlugin"),
           (EntryPoint.SharePlusWindowsPluginCApiRegisterWithRegistrar,
              tok "SharePlusWindowsPluginCApi"),
           (EntryPoint.SpeechToTextWindowsRegisterWithRegistrar, tok "SpeechToTextWindows"),
           (EntryPoint.UrlLauncherWindowsRegisterWithRegistrar, tok "UrlLauncherWindows"),
           (EntryPoint.VolumeControllerPluginCApiRegisterWithRegistrar,
              tok "VolumeControllerPluginCApi")]
      ∧ (∀ entry, ((registrations (trace h registry w)).map Prod.fst).count entry = 1)
      ∧ ((registrations (trace h registry w)).map Prod.snd).Nodup
      ∧ (∀ entry name, (entry, tok name) ∈ registrations (trace h registry w) →
            name = entry.pluginName) := by
  have e := trace_of_tok h registry tok htok w
  have hd : pluginNames.Nodup := by decide
  refine ⟨by rw [e]; rfl, ?_, ?_, ?_⟩
  · intro entry
    have hf : (registrations (trace h registry w)).map Prod.fst = entryPoints := by rw [e]; rfl
    rw [hf]
    cases entry <;> rfl
  · have hs : (registrations (trace h registry w)).map Prod.snd = pluginNames.map tok := by
      rw [e]; rfl
    rw [hs]
    exact hd.map hinj
  · intro entry name hmem
    have hr : registrations (trace h registry w)
        = entryPoints.map (fun ep => (ep, tok ep.pluginName)) := by rw [e]; rfl
    rw [hr, List.mem_map] at hmem
    obtain ⟨ep, _, hep⟩ := hmem
    have h1 : ep = entry := congrArg Prod.fst hep
    have h2 : tok ep.pluginName = tok name := congrArg Prod.snd hep
    rw [← h1]
    exact (hinj h2).symm

/-- Witness of C2 on the stub host, whose registrar for `name` on registry 0
is the pair `(0, name)`. -/
theorem C2_witness :
    registrations (trace stub 0 ())
        = [(EntryPoint.AudioplayersWindowsPluginRegisterWithRegistrar,
              (0, "AudioplayersWindowsPlugin")),
           (EntryPoint.FlutterTtsPluginRegisterWithRegistrar, (0, "FlutterTtsPlugin")),
           (EntryPoint.ScreenBrightnessWindowsPluginRegisterWithRegistrar,
              (0, "ScreenBrightnessWindowsPlugin")),
           (EntryPoint.SharePlusWindowsPluginCApiRegisterWithRegistrar,
              (0, "SharePlusWindowsPluginCApi")),
           (EntryPoint.SpeechToTextWindowsRegisterWithRegistrar, (0, "SpeechToTextWindows")),
           (EntryPoint.UrlLauncherWindowsRegisterWithRegistrar, (0, "UrlLauncherWindows")),
           (EntryPoint.VolumeControllerPluginCApiRegisterWithRegistrar,
              (0, "VolumeControllerPluginCApi"))]
      ∧ ((registrations (trace stub 0 ())).map Prod.snd).Nodup :=
  have hc := C2_each_entry_point_gets_its_own_registrar stub 0 (fun name => (0, name))
    (fun _ _ hab => congrArg Prod.snd hab) (fun _ _ => rfl) ()
  ⟨hc.1, hc.2.2.1⟩

/-- C6, counterexample: on the stub host, the requests and the registrations
logged by two calls on registry 0 differ from those logged by one call; the
name "AudioplayersWindowsPlugin" is requested once by one call and twice by
two, and two calls invoke the Audioplayers entry point twice. -/
theorem C6_counterexample :
    requests (traceTwo stub 0 0 ()) ≠ requests (trace stub 0 ())
      ∧ registrations (traceTwo stub 0 0 ()) ≠ registrations (trace stub 0 ())
      ∧ (requestedNames (trace stub 0 ())).count "AudioplayersWindowsPlugin" = 1
      ∧ (requestedNames (traceTwo stub 0 0 ())).count "AudioplayersWindowsPlugin" = 2
      ∧ ((registrations (traceTwo stub 0 0 ())).map Prod.fst).count
          EntryPoint.AudioplayersWindowsPluginRegisterWithRegistrar = 2 := by
  refine ⟨?_, ?_, by decide, by decide, by decide⟩
  · intro hEq
    have hlen := congrArg List.length hEq
    revert hlen
    decide
  · intro hEq
    have hlen := congrArg List.length hEq
    revert hlen
    decide

/-- C6, amended: `RegisterPlugins` keeps no record of earlier calls.  For every
host, registry and starting world, two calls on the same registry perform the
seven requests and the seven registrations twice: the log is the trace of the
first call followed by the trace of a full second call (28 events), the
requested names are the seven names followed by the seven names again, each of
the seven names is requested exactly twice and each entry point is invoked
exactly twice. -/
theorem C6_second_call_registers_again {W R T : Type} (h : Host W R T) (registry : R)
    (w : W) :
    traceTwo h registry registry w
        = trace h registry w ++ trace h registry (RegisterPlugins h registry w).2
      ∧ (traceTwo h registry registry w).length = 28
      ∧ requestedNames (traceTwo h registry registry w) = pluginNames ++ pluginNames
      ∧ (∀ name ∈ pluginNames,
            (requestedNames (traceTwo h registry registry w)).count name = 2)
      ∧ (∀ entry,
            ((registrations (traceTwo h registry registry w)).map Prod.fst).count entry = 2) := by
  have e := traceTwo_eq h registry registry w
  obtain ⟨t1, t2, t3, t4, t5, t6, t7, e1⟩ := trace_shape h registry w
  obtain ⟨u1, u2, u3, u4, u5, u6, u7, e2⟩ :=
    trace_shape h registry (RegisterPlugins h registry w).2
  have hn : requestedNames (traceTwo h registry registry w) = pluginNames ++ pluginNames := by
    rw [e, e1, e2]; rfl
  have hd : pluginNames.Nodup := by decide
  refine ⟨e, by rw [e, e1, e2]; rfl, hn, ?_, ?_⟩
  · intro name hmem
    rw [hn, List.count_append, List.count_eq_one_of_mem hd hmem]
  · intro entry
    have hf : (registrations (traceTwo h registry registry w)).map Prod.fst
        = entryPoints ++ entryPoints := by rw [e, e1, e2]; rfl
    rw [hf]
    cases entry <;> rfl

/-- C4: the order of the list is not observable in the collection of
registrations.  `RegisterPlugins` is the list-driven registrant over `plugins`;
for every permutation `l` of the seven (name, entry point) pairs and every
registry whose registrar is a function `tok` of the name alone, the registrant
run over `l` requests the same multiset of names and performs the same
multiset of (entry point, registrar) registrations as `RegisterPlugins`, and
in both runs every entry point receives the registrar of its own name. -/
theorem C4_order_is_not_observable {W R T : Type} (h : Host W R T) (registry : R)
    (tok : String → T)
    (htok : ∀ name w, (h.GetRegistrarForPlugin registry name w).1 = tok name)
    (l : List (String × EntryPoint)) (hl : l.Perm plugins) (w : W) :
    RegisterPlugins h registry w = registerList h registry plugins w
      ∧ trace h registry w = listTrace h registry plugins w
      ∧ (requestedNames (listTrace h registry l w)).Perm (requestedNames (trace h registry w))
      ∧ (registrations (listTrace h registry l w)).Perm (registrations (trace h registry w))
      ∧ (∀ entry t, (entry, t) ∈ registrations (listTrace h registry l w) →
            t = tok entry.pluginName)
      ∧ (∀ entry t, (entry, t) ∈ registrations (trace h registry w) →
            t = tok entry.pluginName) := by
  have hL : ∀ l2 : List (String × EntryPoint), listTrace h registry l2 w
      = eventsOf registry l2 (l2.map (fun p => tok p.1)) := by
    intro l2
    simp [listTrace, registerList_recording_of_tok h registry tok htok]
  have hT : trace h registry w = listTrace h registry plugins w := by
    unfold trace listTrace
    rw [RegisterPlugins_eq_registerList]
  have hreg : registrations (trace h registry w)
      = plugins.map (fun p => (p.2, tok p.1)) := by
    rw [hT, hL, registrations_eventsOf]
  have hpair : ∀ entry t, (entry, t) ∈ plugins.map (fun p => (p.2, tok p.1)) →
      t = tok entry.pluginName := by
    intro entry t hmem
    rw [List.mem_map] at hmem
    obtain ⟨p, hp, hpe⟩ := hmem
    have h1 : p.2 = entry := congrArg Prod.fst hpe
    have h2 : tok p.1 = t := congrArg Prod.snd hpe
    have hname : p.1 = p.2.pluginName := plugins_pairing p hp
    rw [← h2, ← h1, ← hname]
  refine ⟨rfl, hT, ?_, ?_, ?_, ?_⟩
  · rw [hT, hL, hL, requestedNames_eventsOf, requestedNames_eventsOf]
    exact hl.map Prod.fst
  · rw [hreg, hL, registrations_eventsOf]
    exact hl.map _
  · intro entry t hmem
    rw [hL, registrations_eventsOf] at hmem
    exact hpair entry t ((hl.map _).subset hmem)
  · intro entry t hmem
    rw [hreg] at hmem
    exact hpair entry t hmem

/-- Witness of C4: the stub host on registry 0 and the list in reverse order. -/
theorem C4_witness :
    plugins.reverse.Perm plugins
      ∧ (requestedNames (listTrace stub 0 plugins.reverse ())).Perm
          (requestedNames (trace stub 0 ()))
      ∧ (registrations (listTrace stub 0 plugins.reverse ())).Perm
          (registrations (trace stub 0 ())) :=
  have hc := C4_order_is_not_observable stub 0 (fun name => (0, name)) (fun _ _ => rfl)
    plugins.reverse (List.reverse_perm plugins) ()
  ⟨List.reverse_perm plugins, hc.2.2.1, hc.2.2.2.1⟩

/-- C3: two distinct registries do not interfere.  Let `r1 ≠ r2` be registries
whose registrars are a function of the registry and the name (`tok r name`)
and belong to the registry that returned them (`owner`).  After
`RegisterPlugins(r1)` followed by `RegisterPlugins(r2)`, the log is the trace
of the call on `r1` alone followed by the trace of the call on `r2` alone; the
requests recorded on each registry and the registrations made with its
registrars are exactly those of the call on that registry alone, seven of
each; and during the call on one registry no entry point receives a registrar
of the other. -/
theorem C3_two_registries_do_not_interfere {W R T : Type} [DecidableEq R] (h : Host W R T)
    (r1 r2 : R) (hne : r1 ≠ r2) (tok : R → String → T) (owner : T → R)
    (htok1 : ∀ name w, (h.GetRegistrarForPlugin r1 name w).1 = tok r1 name)
    (htok2 : ∀ name w, (h.GetRegistrarForPlugin r2 name w).1 = tok r2 name)
    (hown : ∀ r name, owner (tok r name) = r) (w : W) :
    traceTwo h r1 r2 w = trace h r1 w ++ trace h r2 w
      ∧ requestsOn r1 (traceTwo h r1 r2 w) = requestsOn r1 (trace h r1 w)
      ∧ requestsOn r2 (traceTwo h r1 r2 w) = requestsOn r2 (trace h r2 w)
      ∧ registrationsOf owner r1 (traceTwo h r1 r2 w) = registrations (trace h r1 w)
      ∧ registrationsOf owner r2 (traceTwo h r1 r2 w) = registrations (trace h r2 w)
      ∧ (requestsOn r1 (traceTwo h r1 r2 w)).length = 7
      ∧ (requestsOn r2 (traceTwo h r1 r2 w)).length = 7
      ∧ (registrationsOf owner r1 (traceTwo h r1 r2 w)).length = 7
      ∧ (registrationsOf owner r2 (traceTwo h r1 r2 w)).length = 7
      ∧ (∀ p ∈ registrations (trace h r1 w), owner p.2 = r1 ∧ owner p.2 ≠ r2)
      ∧ (∀ p ∈ registrations (trace h r2 (RegisterPlugins h r1 w).2),
            owner p.2 = r2 ∧ owner p.2 ≠ r1) := by
  have e1 := trace_of_tok h r1 (tok r1) htok1
  have e2 := trace_of_tok h r2 (tok r2) htok2
  have hne2 : r2 ≠ r1 := fun hEq => hne hEq.symm
  have hq1 : requestsOn r1 (traceTwo h r1 r2 w) = requestsOn r1 (trace h r1 w) := by
    rw [traceTwo_eq, e1, e2]
    simp [eventsOf, plugins, pluginNames, requestsOn, hne2]
  have hq2 : requestsOn r2 (traceTwo h r1 r2 w) = requestsOn r2 (trace h r2 w) := by
    rw [traceTwo_eq, e1, e2, e2]
    simp [eventsOf, plugins, pluginNames, requestsOn, hne]
  have hg1 : registrationsOf owner r1 (traceTwo h r1 r2 w) = registrations (trace h r1 w) := by
    rw [traceTwo_eq, e1, e2]
    simp [eventsOf, plugins, pluginNames, registrationsOf, registrations, hown, hne2]
  have hg2 : registrationsOf owner r2 (traceTwo h r1 r2 w) = registrations (trace h r2 w) := by
    rw [traceTwo_eq, e1, e2, e2]
    simp [eventsOf, plugins, pluginNames, registrationsOf, registrations, hown, hne]
  refine ⟨by rw [traceTwo_eq, e2, e2], hq1, hq2, hg1, hg2, ?_, ?_, ?_, ?_, ?_, ?_⟩
  · rw [hq1, e1]; simp [eventsOf, plugins, pluginNames, requestsOn]
  · rw [hq2, e2]; simp [eventsOf, plugins, pluginNames, requestsOn]
  · rw [hg1, e1]; rfl
  · rw [hg2, e2]; rfl
  · intro p hp
    rw [e1] at hp
    have ho : owner p.2 = r1 := by
      simp only [eventsOf, plugins, pluginNames, registrations, List.map, List.mem_cons,
        List.mem_singleton, List.not_mem_nil, or_false] at hp
      rcases hp with hp | hp | hp | hp | hp | hp | hp <;> rw [hp] <;> exact hown _ _
    exact ⟨ho, by rw [ho]; exact hne⟩
  · intro p hp
    rw [e2] at hp
    have ho : owner p.2 = r2 := by
      simp only [eventsOf, plugins, pluginNames, registrations, List.map, List.mem_cons,
        List.mem_singleton, List.not_mem_nil, or_false] at hp
      rcases hp with hp | hp | hp | hp | hp | hp | hp <;> rw [hp] <;> exact hown _ _
    exact ⟨ho, by rw [ho]; exact hne2⟩

/-- Witness of C3: the stub host with registries 0 and 1, whose registrar for
`name` on registry `r` is `(r, name)` and belongs to `r`. -/
theorem C3_witness :
    (0 : Nat) ≠ 1
      ∧ traceTwo stub 0 1 () = trace stub 0 () ++ trace stub 1 ()
      ∧ registrationsOf Prod.fst 0 (traceTwo stub 0 1 ()) = registrations (trace stub 0 ())
      ∧ registrationsOf Prod.fst 1 (traceTwo stub 0 1 ()) = registrations (trace stub 1 ()) :=
  have hc := C3_two_registries_do_not_interfere stub 0 1 (by decide)
    (fun r name => (r, name)) Prod.fst (fun _ _ => rfl) (fun _ _ => rfl) (fun _ _ => rfl) ()
  ⟨by decide, hc.1, hc.2.2.2.1, hc.2.2.2.2.1⟩

end PluginRegistrant
